import Mathlib

/-!
Verification of the Tomato Clock background timer service
(service worker of the Chrome-tomato-clock extension).

The development shallowly embeds the `TomatoClockService` class:
its timer state, settings, session-start marker, armed alarm and
bounded history log become one record type, and each method
(`startTimer`, `pauseTimer`, `skipPhase`, `resetTimer`,
`onTimerComplete`, `moveToNextPhase`, `getCurrentPhaseDuration`,
`updateTimeRemaining`, `recordCompletedPomodoro`, the recovery block of
`init`, and the `UPDATE_SETTINGS` message case) becomes a pure state
transformer.  Wall-clock reads (`Date.now()`) become an explicit `now`
argument in epoch milliseconds; the chrome alarm is modelled by an
`Option Nat` field holding the armed delay in seconds (`none` =
disarmed); the chrome storage history key is modelled by a list field.
-/

/-- The three timer phases (the JS strings 'work', 'short-break',
'long-break'). -/
inductive Phase where
  | work
  | shortBreak
  | longBreak
deriving DecidableEq, Repr

/-- `this.timerState` of the service. `endTime` is epoch milliseconds,
`timeRemaining` is seconds. -/
structure TimerState where
  isRunning : Bool
  currentPhase : Phase
  currentCycle : Nat
  timeRemaining : Nat
  endTime : Option Nat
deriving DecidableEq, Repr

/-- `this.settings` of the service: durations in minutes. -/
structure Settings where
  workDuration : Nat
  shortBreakDuration : Nat
  longBreakDuration : Nat
deriving DecidableEq, Repr

/-- One history entry built by `recordCompletedPomodoro`.  `id` is the
`Date.now()` value at completion; `date` is the calendar day encoded as
the UTC day index (`toISOString().split('T')[0]` determines exactly
this quantity); `startTime` is the epoch-millisecond clock time that the
`toTimeString().slice(0, 5)` rendering is derived from; `duration` is in
minutes. -/
structure SessionRecord where
  id : Nat
  date : Nat
  startTime : Nat
  duration : Nat
  category : String
deriving DecidableEq, Repr

/-- The whole in-memory service: timer state and settings, the current
task label, the session-start marker, the armed alarm (delay in
seconds) and the persisted history list. -/
structure ServiceState where
  timerState : TimerState
  settings : Settings
  currentTaskType : String
  sessionStartTime : Option Nat
  alarm : Option Nat
  history : List SessionRecord
deriving DecidableEq, Repr

/-- `getCurrentPhaseDuration()`: pure lookup of the current phase's full
duration in seconds (`minutes * 60`). -/
def getCurrentPhaseDuration (st : Settings) (p : Phase) : Nat :=
  match p with
  | Phase.work => st.workDuration * 60
  | Phase.shortBreak => st.shortBreakDuration * 60
  | Phase.longBreak => st.longBreakDuration * 60

/-- `startAlarm(seconds)`: clear any armed alarm and arm one for the
given number of seconds (the JS passes `seconds / 60` minutes to
`chrome.alarms.create`). -/
def startAlarm (s : ServiceState) (seconds : Nat) : ServiceState :=
  { s with alarm := some seconds }

/-- `Math.max(0, Math.floor((endTime - now) / 1000))` on epoch
milliseconds: the reconciled whole seconds left until the deadline. -/
def timeLeftAt (endTime now : Nat) : Nat :=
  (max 0 (Int.fdiv ((endTime : Int) - (now : Int)) 1000)).toNat

/-- `startTimer()`: refill `timeRemaining` when it has run out, mark the
timer running with an absolute deadline `now + timeRemaining * 1000`,
record the session-start marker for work phases, and arm the alarm. -/
def startTimer (s : ServiceState) (now : Nat) : ServiceState :=
  let tr := if s.timerState.timeRemaining ≤ 0 then
      getCurrentPhaseDuration s.settings s.timerState.currentPhase
    else s.timerState.timeRemaining
  let ts := { s.timerState with
    timeRemaining := tr
    isRunning := true
    endTime := some (now + tr * 1000) }
  let marker := if s.timerState.currentPhase = Phase.work then some now
    else s.sessionStartTime
  startAlarm { s with timerState := ts, sessionStartTime := marker } tr

/-- `pauseTimer()`: stop running, clear the deadline, disarm the
alarm. -/
def pauseTimer (s : ServiceState) : ServiceState :=
  { s with
    timerState := { s.timerState with isRunning := false, endTime := none }
    alarm := none }

/-- `moveToNextPhase()`: the phase transition rule, kept verbatim from
the source including the inner (tautological) re-check of the phase
before the cycle increment. -/
def moveToNextPhase (ts : TimerState) (st : Settings) : TimerState :=
  if ts.currentPhase = Phase.work then
    if ts.currentCycle % 4 = 0 then
      { ts with
        currentPhase := Phase.longBreak
        timeRemaining := st.longBreakDuration * 60 }
    else
      { ts with
        currentPhase := Phase.shortBreak
        timeRemaining := st.shortBreakDuration * 60 }
  else
    let ts1 := { ts with
      currentPhase := Phase.work
      timeRemaining := st.workDuration * 60 }
    if ts1.currentPhase = Phase.work then
      { ts1 with currentCycle := ts1.currentCycle + 1 }
    else ts1

/-- `history.push(record)` followed by `history.slice(-1000)`: append
and keep only the last 1000 entries. -/
def appendHistory (h : List SessionRecord) (r : SessionRecord) : List SessionRecord :=
  let pushed := h ++ [r]
  pushed.drop (pushed.length - 1000)

/-- `recordCompletedPomodoro()`: build a history record (falling back to
`now - workDuration * 60 * 1000` when no session-start marker exists),
append it with the 1000-entry cap, and clear the marker.  The JS
`this.currentTaskType || '工作'` fallback fires exactly on the empty
string. -/
def recordCompletedPomodoro (s : ServiceState) (now : Nat) : ServiceState :=
  let startMs := s.sessionStartTime.getD (now - s.settings.workDuration * 60 * 1000)
  let record : SessionRecord := {
    id := now
    date := now / 86400000
    startTime := startMs
    duration := s.settings.workDuration
    category := if s.currentTaskType = "" then "工作" else s.currentTaskType }
  { s with
    history := appendHistory s.history record
    sessionStartTime := none }

/-- `onTimerComplete()`: stop running and clear the deadline, record a
pomodoro when the completed phase is work, then advance to the next
phase.  Notification and sound are fire-and-forget side effects with no
bearing on the state. -/
def onTimerComplete (s : ServiceState) (now : Nat) : ServiceState :=
  let s1 := { s with
    timerState := { s.timerState with isRunning := false, endTime := none } }
  let s2 := if s1.timerState.currentPhase = Phase.work then
      recordCompletedPomodoro s1 now
    else s1
  { s2 with timerState := moveToNextPhase s2.timerState s2.settings }

/-- `skipPhase()`: disarm the alarm and run the completion path. -/
def skipPhase (s : ServiceState) (now : Nat) : ServiceState :=
  onTimerComplete { s with alarm := none } now

/-- `resetTimer()`: return the timer state to its defaults (work phase,
cycle 1, a full work duration, not running, no deadline) and disarm the
alarm.  Note it touches only `timerState` and the alarm. -/
def resetTimer (s : ServiceState) : ServiceState :=
  { s with
    timerState := {
      isRunning := false
      currentPhase := Phase.work
      currentCycle := 1
      timeRemaining := s.settings.workDuration * 60
      endTime := none }
    alarm := none }

/-- `updateTimeRemaining()`: the 1 Hz tick.  Only when the timer is
running with a deadline does it reconcile `timeRemaining`, and it
invokes the completion path when the reconciled value has reached
zero. -/
def updateTimeRemaining (s : ServiceState) (now : Nat) : ServiceState :=
  match s.timerState.endTime with
  | some e =>
    if s.timerState.isRunning then
      let timeLeft := timeLeftAt e now
      if timeLeft ≠ s.timerState.timeRemaining then
        let s1 := { s with
          timerState := { s.timerState with timeRemaining := timeLeft } }
        if timeLeft ≤ 0 then onTimerComplete s1 now else s1
      else s
    else s
  | none => s

/-- The recovery block of `init()`: when the persisted state says the
timer was running with a deadline, reconcile; a positive remainder
resumes with a rearmed alarm, a zero remainder synthesizes one
completion.  The second component counts the `onTimerComplete()`
invocations made by the block. -/
def recoverState (s : ServiceState) (now : Nat) : ServiceState × Nat :=
  match s.timerState.endTime with
  | some e =>
    if s.timerState.isRunning then
      let timeLeft := timeLeftAt e now
      if 0 < timeLeft then
        (startAlarm { s with
          timerState := { s.timerState with timeRemaining := timeLeft } } timeLeft, 0)
      else (onTimerComplete s now, 1)
    else (s, 0)
  | none => (s, 0)

/-- The `UPDATE_SETTINGS` message: the payload is spread over the
existing settings (`{ ...this.settings, ...message.settings }`), each
absent field keeping its old value. -/
structure SettingsPatch where
  workDuration : Option Nat
  shortBreakDuration : Option Nat
  longBreakDuration : Option Nat
deriving DecidableEq, Repr

/-- Merge a settings payload over existing settings. -/
def mergeSettings (st : Settings) (p : SettingsPatch) : Settings :=
  { workDuration := p.workDuration.getD st.workDuration
    shortBreakDuration := p.shortBreakDuration.getD st.shortBreakDuration
    longBreakDuration := p.longBreakDuration.getD st.longBreakDuration }

/-- The `UPDATE_SETTINGS` case of `handleMessage`: replace the settings
by the merged ones; nothing else is touched. -/
def updateSettingsCmd (s : ServiceState) (p : SettingsPatch) : ServiceState :=
  { s with settings := mergeSettings s.settings p }

/-- The constructor defaults of `TomatoClockService`: not running, work
phase, cycle 1, 25 minutes remaining, no deadline, default settings
25/5/15, task label '工作', no marker, no alarm, empty history. -/
def initState : ServiceState :=
  { timerState := {
      isRunning := false
      currentPhase := Phase.work
      currentCycle := 1
      timeRemaining := 25 * 60
      endTime := none }
    settings := {
      workDuration := 25
      shortBreakDuration := 5
      longBreakDuration := 15 }
    currentTaskType := "工作"
    sessionStartTime := none
    alarm := none
    history := [] }

/-- One serialized operation of the command surface: the message-style
entry points that mutate the timer state. -/
inductive Step : ServiceState → ServiceState → Prop where
  | start (s : ServiceState) (now : Nat) : Step s (startTimer s now)
  | pause (s : ServiceState) : Step s (pauseTimer s)
  | skip (s : ServiceState) (now : Nat) : Step s (skipPhase s now)
  | reset (s : ServiceState) : Step s (resetTimer s)
  | complete (s : ServiceState) (now : Nat) : Step s (onTimerComplete s now)

/-- States reachable from the constructor defaults through the
serialized operations. -/
inductive Reachable : ServiceState → Prop where
  | init : Reachable initState
  | step {s t : ServiceState} : Reachable s → Step s t → Reachable t

/-- The transition rule exactly as the specification words it (the
source's inner re-check of the phase removed, the cycle incremented
unconditionally on the break-to-work edge). -/
def specTransition (ts : TimerState) (st : Settings) : TimerState :=
  if ts.currentPhase = Phase.work then
    if ts.currentCycle % 4 = 0 then
      { ts with
        currentPhase := Phase.longBreak
        timeRemaining := st.longBreakDuration * 60 }
    else
      { ts with
        currentPhase := Phase.shortBreak
        timeRemaining := st.shortBreakDuration * 60 }
  else
    { ts with
      currentPhase := Phase.work
      timeRemaining := st.workDuration * 60
      currentCycle := ts.currentCycle + 1 }

theorem moveToNextPhase_eq_spec (ts : TimerState) (st : Settings) :
    moveToNextPhase ts st = specTransition ts st := by
  unfold moveToNextPhase specTransition
  by_cases h : ts.currentPhase = Phase.work <;> simp [h]

theorem moveToNextPhase_isRunning (ts : TimerState) (st : Settings) :
    (moveToNextPhase ts st).isRunning = ts.isRunning := by
  rw [moveToNextPhase_eq_spec]
  unfold specTransition
  split
  · split <;> rfl
  · rfl

theorem moveToNextPhase_endTime (ts : TimerState) (st : Settings) :
    (moveToNextPhase ts st).endTime = ts.endTime := by
  rw [moveToNextPhase_eq_spec]
  unfold specTransition
  split
  · split <;> rfl
  · rfl

theorem onTimerComplete_timerState (s : ServiceState) (now : Nat) :
    (onTimerComplete s now).timerState =
      moveToNextPhase
        { s.timerState with isRunning := false, endTime := none }
        s.settings := by
  by_cases h : s.timerState.currentPhase = Phase.work <;>
    simp [onTimerComplete, recordCompletedPomodoro, h]

theorem onTimerComplete_isRunning (s : ServiceState) (now : Nat) :
    (onTimerComplete s now).timerState.isRunning = false := by
  rw [onTimerComplete_timerState, moveToNextPhase_isRunning]

theorem onTimerComplete_endTime (s : ServiceState) (now : Nat) :
    (onTimerComplete s now).timerState.endTime = none := by
  rw [onTimerComplete_timerState, moveToNextPhase_endTime]

/-- The break/cycle consistency invariant: a long break is only ever in
progress at a cycle divisible by 4, a short break only at other
cycles. -/
def BreakCycleInv (s : ServiceState) : Prop :=
  (s.timerState.currentPhase = Phase.longBreak →
    s.timerState.currentCycle % 4 = 0) ∧
  (s.timerState.currentPhase = Phase.shortBreak →
    ¬ s.timerState.currentCycle % 4 = 0)

theorem breakCycleInv_complete (s : ServiceState) (now : Nat) :
    BreakCycleInv (onTimerComplete s now) := by
  unfold BreakCycleInv
  rw [onTimerComplete_timerState, moveToNextPhase_eq_spec]
  unfold specTransition
  by_cases hw : s.timerState.currentPhase = Phase.work
  · by_cases h4 : s.timerState.currentCycle % 4 = 0 <;> simp [hw, h4]
  · simp [hw]

theorem reachable_breakCycleInv (s : ServiceState) (h : Reachable s) :
    BreakCycleInv s := by
  induction h with
  | init => simp [BreakCycleInv, initState]
  | step hr hst ih =>
    cases hst with
    | start now => exact ih
    | pause => exact ih
    | skip now => exact breakCycleInv_complete _ now
    | reset => simp [BreakCycleInv, resetTimer]
    | complete now => exact breakCycleInv_complete _ now

/-- C5: in every state reachable from the initial state via the
start/pause/skip/reset/onComplete operations, the timer is running
exactly when an absolute deadline is set; each operation preserves
this equivalence. -/
theorem running_iff_endTime_set (s : ServiceState) (h : Reachable s) :
    s.timerState.isRunning = true ↔ s.timerState.endTime ≠ none := by
  induction h with
  | init => simp [initState]
  | step hr hst ih =>
    cases hst with
    | start now => simp [startTimer, startAlarm]
    | pause => simp [pauseTimer]
    | skip now =>
      simp [skipPhase, onTimerComplete_isRunning, onTimerComplete_endTime]
    | reset => simp [resetTimer]
    | complete now =>
      simp [onTimerComplete_isRunning, onTimerComplete_endTime]

/-- C5 witness: the equivalence instantiated at the initial state. -/
theorem running_iff_endTime_set_witness :
    initState.timerState.isRunning = true ↔
      initState.timerState.endTime ≠ none :=
  running_iff_endTime_set initState Reachable.init

/-- Repeated natural completions from the initial state, all at clock
time 0. -/
def completeIter : Nat → ServiceState
  | 0 => initState
  | n + 1 => onTimerComplete (completeIter n) 0

/-- C4 counterexample: after five completions from the initial state the
service sits in a ShortBreak at cycle 3 (a reachable state); the sixth
completion enters Work with cycle 4 — divisible by 4 — although the
break just completed was a ShortBreak, not a LongBreak. -/
theorem work_entry_long_break_counterexample :
    Reachable (completeIter 5) ∧
    (completeIter 5).timerState.currentPhase = Phase.shortBreak ∧
    (onTimerComplete (completeIter 5) 0).timerState.currentPhase =
      Phase.work ∧
    (onTimerComplete (completeIter 5) 0).timerState.currentCycle % 4 = 0 := by
  refine ⟨?_, by decide, by decide, by decide⟩
  have h1 : Reachable (completeIter 1) :=
    Reachable.step Reachable.init (Step.complete (completeIter 0) 0)
  have h2 : Reachable (completeIter 2) :=
    Reachable.step h1 (Step.complete (completeIter 1) 0)
  have h3 : Reachable (completeIter 3) :=
    Reachable.step h2 (Step.complete (completeIter 2) 0)
  have h4 : Reachable (completeIter 4) :=
    Reachable.step h3 (Step.complete (completeIter 3) 0)
  exact Reachable.step h4 (Step.complete (completeIter 4) 0)

/-- C4 (amended): in every reachable state whose phase is a break, the
completion that enters Work yields cycle % 4 = 1 exactly when the break
just completed was a LongBreak (entering Work with cycle % 4 = 0 follows
a ShortBreak taken at a cycle ≡ 3 mod 4). -/
theorem work_entry_prev_break (s : ServiceState) (now : Nat)
    (h : Reachable s) (hb : ¬ s.timerState.currentPhase = Phase.work) :
    (onTimerComplete s now).timerState.currentPhase = Phase.work ∧
    (s.timerState.currentPhase = Phase.longBreak ↔
      (onTimerComplete s now).timerState.currentCycle % 4 = 1) := by
  have hinv := reachable_breakCycleInv s h
  rw [onTimerComplete_timerState, moveToNextPhase_eq_spec]
  unfold specTransition
  cases hp : s.timerState.currentPhase with
  | work => exact absurd hp hb
  | shortBreak =>
    have h4 := hinv.2 hp
    simp [hp]
    omega
  | longBreak =>
    have h4 := hinv.1 hp
    simp [hp]
    omega

/-- C4 witness: the amended statement instantiated at the reachable
ShortBreak state reached by one completion. -/
theorem work_entry_prev_break_witness :
    (onTimerComplete (completeIter 1) 0).timerState.currentPhase =
      Phase.work ∧
    ((completeIter 1).timerState.currentPhase = Phase.longBreak ↔
      (onTimerComplete (completeIter 1) 0).timerState.currentCycle % 4 = 1) :=
  work_entry_prev_break (completeIter 1) 0
    (Reachable.step Reachable.init (Step.complete (completeIter 0) 0))
    (by decide)

/-- Phase/cycle trajectory under repeated applications of the transition
rule with the default settings (work 25, short 5, long 15), starting at
cycle 1 Work. -/
def phaseTrace : Nat → TimerState
  | 0 => initState.timerState
  | n + 1 => moveToNextPhase (phaseTrace n) initState.settings

/-- C2: the transition applied by a completion is exactly the spec's
rule — from Work at cycle % 4 = 0 to LongBreak with a full long-break
duration, from Work otherwise to ShortBreak with a full short-break
duration, from either break back to Work with a full work duration and
the cycle incremented — and under settings 25/5/15 the completion
sequence from cycle 1 Work runs Work, ShortBreak, Work (2), ShortBreak,
Work (3), ShortBreak, Work (4), LongBreak. -/
theorem transition_rule_and_sequence (ts : TimerState) (st : Settings) :
    moveToNextPhase ts st = specTransition ts st ∧
    (List.range 8).map
        (fun n => ((phaseTrace n).currentPhase, (phaseTrace n).currentCycle)) =
      [(Phase.work, 1), (Phase.shortBreak, 1), (Phase.work, 2),
       (Phase.shortBreak, 2), (Phase.work, 3), (Phase.shortBreak, 3),
       (Phase.work, 4), (Phase.longBreak, 4)] :=
  ⟨moveToNextPhase_eq_spec ts st, by decide⟩

/-- C1: recovery with running = true and a stored deadline computes
max(0, floor((endTime - now)/1000)); a positive value is assigned to
timeRemaining and rearms the alarm for that duration with no completion,
and a zero value produces exactly one onComplete() invocation, after
which running = false. -/
theorem recovery_reconciliation (s : ServiceState) (e now : Nat)
    (hrun : s.timerState.isRunning = true)
    (hend : s.timerState.endTime = some e) :
    (0 < timeLeftAt e now →
      (recoverState s now).1.timerState.timeRemaining = timeLeftAt e now ∧
      (recoverState s now).1.alarm = some (timeLeftAt e now) ∧
      (recoverState s now).2 = 0) ∧
    (timeLeftAt e now = 0 →
      (recoverState s now).2 = 1 ∧
      (recoverState s now).1.timerState.isRunning = false) := by
  unfold recoverState
  rw [hend]
  simp only [hrun, if_true]
  constructor
  · intro hpos
    rw [if_pos hpos]
    exact ⟨rfl, rfl, rfl⟩
  · intro hzero
    rw [if_neg (by omega)]
    exact ⟨rfl, onTimerComplete_isRunning s now⟩

/-- A persisted state whose deadline (10000 ms) lies 90 seconds in the
past at recovery time (now = 100000 ms). -/
def crashedState : ServiceState :=
  { initState with timerState := { initState.timerState with
      isRunning := true
      timeRemaining := 10
      endTime := some 10000 } }

/-- C1 witness: recovering `crashedState` at now = 100000 performs
exactly one completion and leaves the timer stopped. -/
theorem recovery_reconciliation_witness :
    (recoverState crashedState 100000).2 = 1 ∧
    (recoverState crashedState 100000).1.timerState.isRunning = false :=
  (recovery_reconciliation crashedState 10000 100000 rfl rfl).2 (by decide)

/-- The running work state produced by starting the fresh service at
clock time 0. -/
def sRunning : ServiceState := startTimer initState 0

/-- C3 counterexample: `onTimerComplete()` does not check `running`
before acting — invoked twice from the running work state it advances
two phases (work to short break to work at cycle 2), so the double
invocation differs from the single one on the timer state. -/
theorem complete_twice_counterexample :
    sRunning.timerState.isRunning = true ∧
    (onTimerComplete (onTimerComplete sRunning 0) 0).timerState ≠
      (onTimerComplete sRunning 0).timerState :=
  ⟨rfl, by decide⟩

/-- C3 (amended): `onTimerComplete()` itself has no running guard and is
not idempotent; the double-delivery protection lives in the periodic
tick: `updateTimeRemaining` acts only when the timer is running with a
deadline set, so once a completion has set running = false a subsequent
tick — the path that would re-deliver a completion for the same
deadline — changes nothing. -/
theorem tick_guard_after_complete (s : ServiceState) (now now2 : Nat) :
    updateTimeRemaining (onTimerComplete s now) now2 = onTimerComplete s now ∧
    (s.timerState.isRunning = false → updateTimeRemaining s now = s) := by
  constructor
  · have he := onTimerComplete_endTime s now
    unfold updateTimeRemaining
    rw [he]
  · intro hstop
    unfold updateTimeRemaining
    cases hE : s.timerState.endTime with
    | none => rfl
    | some e => simp [hstop]

/-- C3 witness: the tick after a completion of the initial state is a
no-op, and the tick guard instantiated at the stopped initial state. -/
theorem tick_guard_after_complete_witness :
    updateTimeRemaining (onTimerComplete initState 0) 5 =
      onTimerComplete initState 0 ∧
    updateTimeRemaining initState 0 = initState :=
  ⟨(tick_guard_after_complete initState 0 5).1,
   (tick_guard_after_complete initState 0 5).2 rfl⟩

/-- A state carrying an in-progress session-start marker. -/
def staleMarkerState : ServiceState :=
  { initState with sessionStartTime := some 42 }

/-- C6 counterexample: `resetTimer()` does not discard the session-start
marker — resetting a state whose marker is set leaves it set. -/
theorem reset_discards_marker_counterexample :
    (resetTimer staleMarkerState).sessionStartTime = some 42 ∧
    ¬ (resetTimer staleMarkerState).sessionStartTime = none :=
  ⟨rfl, by decide⟩

/-- C6 (amended): reset from any state yields exactly the timer state
with phase Work, cycle 1, timeRemaining the full work duration from the
current settings, running false and no deadline, and disarms the alarm —
but it leaves the session-start marker unchanged rather than discarding
it. -/
theorem reset_yields_defaults (s : ServiceState) :
    (resetTimer s).timerState =
      { isRunning := false
        currentPhase := Phase.work
        currentCycle := 1
        timeRemaining := s.settings.workDuration * 60
        endTime := none } ∧
    (resetTimer s).alarm = none ∧
    (resetTimer s).sessionStartTime = s.sessionStartTime :=
  ⟨rfl, rfl, rfl⟩

/-- C7: the bounded history never exceeds 1000 entries; an append to a
log of fewer than 1000 records keeps everything, and an append to a full
log of exactly 1000 records evicts the oldest entry (FIFO) so that
exactly the most recent 1000 remain. -/
theorem history_capacity (h : List SessionRecord) (r : SessionRecord) :
    (h.length < 1000 → appendHistory h r = h ++ [r]) ∧
    (h.length = 1000 → appendHistory h r = h.drop 1 ++ [r]) ∧
    (h.length ≤ 1000 → (appendHistory h r).length ≤ 1000) := by
  refine ⟨?_, ?_, ?_⟩
  · intro hlt
    show List.drop ((h ++ [r]).length - 1000) (h ++ [r]) = h ++ [r]
    have hz : (h ++ [r]).length - 1000 = 0 := by
      simp only [List.length_append, List.length_singleton]
      omega
    rw [hz, List.drop_zero]
  · intro heq
    show List.drop ((h ++ [r]).length - 1000) (h ++ [r]) = List.drop 1 h ++ [r]
    have h1 : (h ++ [r]).length - 1000 = 1 := by
      simp only [List.length_append, List.length_singleton]
      omega
    rw [h1, List.drop_append_of_le_length (by omega)]
  · intro hle
    show (List.drop ((h ++ [r]).length - 1000) (h ++ [r])).length ≤ 1000
    simp only [List.length_drop, List.length_append, List.length_singleton]
    omega

/-- A concrete history record. -/
def sampleRecord : SessionRecord :=
  { id := 0, date := 0, startTime := 0, duration := 25, category := "工作" }

/-- C7 witness: appending to a full log of 1000 identical records drops
the oldest entry. -/
theorem history_capacity_witness :
    appendHistory (List.replicate 1000 sampleRecord) sampleRecord =
      (List.replicate 1000 sampleRecord).drop 1 ++ [sampleRecord] :=
  (history_capacity (List.replicate 1000 sampleRecord) sampleRecord).2.1
    (List.length_replicate 1000 sampleRecord)

/-- C8: a completion appends a record to the history exactly when the
completed phase is Work; the record's start time is the session-start
marker, falling back to now minus the full work duration in
milliseconds, and its duration and category come from the current
settings and task label (empty label replaced by the default). -/
theorem complete_appends_record_iff_work (s : ServiceState) (now : Nat) :
    (onTimerComplete s now).history =
      (if s.timerState.currentPhase = Phase.work then
        appendHistory s.history
          { id := now
            date := now / 86400000
            startTime :=
              s.sessionStartTime.getD (now - s.settings.workDuration * 60 * 1000)
            duration := s.settings.workDuration
            category :=
              if s.currentTaskType = "" then "工作" else s.currentTaskType }
      else s.history) := by
  by_cases hw : s.timerState.currentPhase = Phase.work <;>
    simp [onTimerComplete, recordCompletedPomodoro, hw]

/-- C9: processing an UpdateSettings command replaces only the settings
(absent payload fields keep their old values); every field of the timer
state — running, phase, cycle, timeRemaining, endTime — is unchanged, so
a mid-phase settings change does not shrink the phase in progress. -/
theorem update_settings_frame (s : ServiceState) (p : SettingsPatch) :
    (updateSettingsCmd s p).timerState.isRunning = s.timerState.isRunning ∧
    (updateSettingsCmd s p).timerState.currentPhase = s.timerState.currentPhase ∧
    (updateSettingsCmd s p).timerState.currentCycle = s.timerState.currentCycle ∧
    (updateSettingsCmd s p).timerState.timeRemaining = s.timerState.timeRemaining ∧
    (updateSettingsCmd s p).timerState.endTime = s.timerState.endTime ∧
    (updateSettingsCmd s p).settings = mergeSettings s.settings p :=
  ⟨rfl, rfl, rfl, rfl, rfl, rfl⟩

/-- C10: starting while already running (with the positive timeRemaining
a running state carries) is accepted: phase, cycle and timeRemaining are
unchanged, the deadline is recomputed as now + timeRemaining * 1000, and
the alarm is rearmed for timeRemaining seconds. -/
theorem start_while_running (s : ServiceState) (now : Nat)
    (hrun : s.timerState.isRunning = true)
    (hpos : 0 < s.timerState.timeRemaining) :
    (startTimer s now).timerState.currentPhase = s.timerState.currentPhase ∧
    (startTimer s now).timerState.currentCycle = s.timerState.currentCycle ∧
    (startTimer s now).timerState.timeRemaining = s.timerState.timeRemaining ∧
    (startTimer s now).timerState.endTime =
      some (now + s.timerState.timeRemaining * 1000) ∧
    (startTimer s now).alarm = some s.timerState.timeRemaining := by
  have h0 : ¬ s.timerState.timeRemaining ≤ 0 := by omega
  simp [startTimer, startAlarm, h0]

/-- C10 witness: restarting the running work state `sRunning`
(timeRemaining 1500 s) at clock time 7000 ms extends the deadline to
7000 + 1500000. -/
theorem start_while_running_witness :
    (startTimer sRunning 7000).timerState.currentPhase =
      sRunning.timerState.currentPhase ∧
    (startTimer sRunning 7000).timerState.currentCycle =
      sRunning.timerState.currentCycle ∧
    (startTimer sRunning 7000).timerState.timeRemaining =
      sRunning.timerState.timeRemaining ∧
    (startTimer sRunning 7000).timerState.endTime =
      some (7000 + sRunning.timerState.timeRemaining * 1000) ∧
    (startTimer sRunning 7000).alarm = some sRunning.timerState.timeRemaining :=
  start_while_running sRunning 7000 rfl (by decide)
